import Mathlib

/-!
Verification development for the Streamlit voicebot `app.py`:
a shallow embedding of its conversation-state bookkeeping and its
resilient OpenAI caller (`call_openai_with_backoff`), together with
theorems settling the specification claims about them.
-/

set_option linter.unusedVariables false

/-- A chat `message` object as read from the completion response JSON:
`content` is `none` when the field is absent (or JSON null). -/
structure ChatMessage where
  content : Option String
  deriving DecidableEq

/-- One element of the `choices` array; `message` is `none` when absent. -/
structure ChatChoice where
  message : Option ChatMessage
  deriving DecidableEq

/-- The parsed JSON body of a chat-completion response; `choices` is `none`
when the field is absent (Python `data.get("choices", [{}])` then supplies
the default `[{}]`). -/
structure ChatBody where
  choices : Option (List ChatChoice)
  deriving DecidableEq

/-- Outcome of one HTTP POST to the chat endpoint, as observed by
`call_openai_with_backoff` (line 115-117 of app.py): a 2xx response with a
parsed JSON body, an HTTP error status raised by `raise_for_status`
(`requests.HTTPError`, whose response may lack a status code), or a
network-level `requests.RequestException` (timeout, connection error). -/
inductive HttpOutcome
  | success (body : ChatBody)
  | httpError (status : Option Nat)
  | netError
  deriving DecidableEq

/-- How a run of `call_openai_with_backoff` ends when it does not return a
body: re-raising the last `HTTPError`, re-raising the last network
exception, or falling off the `for` loop without any attempt
(`max_retries = 0`), in which case Python returns `None`. -/
inductive CallError
  | httpError (status : Option Nat)
  | netError
  | noAttempt
  deriving DecidableEq

/-- Observable trace of one run of `call_openai_with_backoff`: its result,
the list of back-off delays passed to `time.sleep` in order, and how many
HTTP attempts (POSTs) were made. -/
structure CallTrace where
  result : Except CallError ChatBody
  sleeps : List ℚ
  attempts : Nat

/-- The body of the `for attempt in range(1, max_retries + 1)` loop of
`call_openai_with_backoff` (app.py lines 113-132), iterated over the list
of remaining attempt numbers.  The endpoint is modelled by `script`,
giving the outcome of the POST made on each attempt number.
On `HTTPError` it sleeps and retries only when the status is 429 and
`attempt < max_retries`; on any other `RequestException` it sleeps and
retries whenever `attempt < max_retries`; the back-off delay starts at the
given value and doubles after every sleep. -/
def callLoop (script : Nat → HttpOutcome) (max_retries : Nat) :
    ℚ → List Nat → CallTrace
  | _, [] => { result := .error .noAttempt, sleeps := [], attempts := 0 }
  | backoff, attempt :: rest =>
    match script attempt with
    | .success body => { result := .ok body, sleeps := [], attempts := 1 }
    | .httpError status =>
      if status = some 429 ∧ attempt < max_retries then
        let r := callLoop script max_retries (backoff * 2) rest
        { result := r.result, sleeps := backoff :: r.sleeps, attempts := r.attempts + 1 }
      else { result := .error (.httpError status), sleeps := [], attempts := 1 }
    | .netError =>
      if attempt < max_retries then
        let r := callLoop script max_retries (backoff * 2) rest
        { result := r.result, sleeps := backoff :: r.sleeps, attempts := r.attempts + 1 }
      else { result := .error .netError, sleeps := [], attempts := 1 }

/-- `call_openai_with_backoff(messages, api_key, model, max_retries,
initial_backoff)` (app.py lines 102-132), with the network abstracted into
`script`.  The loop runs over `range(1, max_retries + 1)`, i.e. the
attempt numbers `1, …, max_retries`. -/
def call_openai_with_backoff (script : Nat → HttpOutcome)
    (max_retries : Nat) (initial_backoff : ℚ) : CallTrace :=
  callLoop script max_retries initial_backoff (List.range' 1 max_retries)

/-- Expected sleeps of a run that retries `n` times starting from back-off
`b`: `b, 2b, 4b, …`. -/
def geomSleeps (b : ℚ) (n : Nat) : List ℚ :=
  (List.range n).map (fun i => b * 2 ^ i)

lemma geomSleeps_succ (b : ℚ) (n : Nat) :
    geomSleeps b (n + 1) = b :: geomSleeps (b * 2) n := by
  unfold geomSleeps
  rw [List.range_succ_eq_map, List.map_cons, List.map_map]
  refine congrArg₂ _ (by ring) (List.map_congr_left fun i _ => ?_)
  simp [Function.comp, pow_succ]
  ring

/-- If every attempt yields HTTP 429, the loop over attempt numbers
`s, …, s+n` (with `s + n = max_retries`, so the last attempt number equals
`max_retries`) makes all `n + 1` attempts, sleeps the `n` doubling
back-offs before each retry, and ends by re-raising the 429 error. -/
lemma callLoop_all429 (script : Nat → HttpOutcome)
    (h : ∀ a, script a = .httpError (some 429)) (mr : Nat) :
    ∀ n s b, s + n = mr →
      callLoop script mr b (List.range' s (n + 1)) =
        { result := .error (.httpError (some 429)),
          sleeps := geomSleeps b n, attempts := n + 1 } := by
  intro n
  induction n with
  | zero =>
    intro s b hs
    have hs' : s = mr := by omega
    subst hs'
    simp [List.range'_succ, callLoop, h, geomSleeps]
  | succ k ih =>
    intro s b hs
    have hlt : s < mr := by omega
    have hrec := ih (s + 1) (b * 2) (by omega)
    rw [geomSleeps_succ, List.range'_succ, callLoop, h s, hrec]
    simp [hlt]

/-- If every attempt yields a network-level `RequestException`, the loop
behaves exactly as in the all-429 case except for the exception class it
finally re-raises. -/
lemma callLoop_allNet (script : Nat → HttpOutcome)
    (h : ∀ a, script a = .netError) (mr : Nat) :
    ∀ n s b, s + n = mr →
      callLoop script mr b (List.range' s (n + 1)) =
        { result := .error .netError,
          sleeps := geomSleeps b n, attempts := n + 1 } := by
  intro n
  induction n with
  | zero =>
    intro s b hs
    have hs' : s = mr := by omega
    subst hs'
    simp [List.range'_succ, callLoop, h, geomSleeps]
  | succ k ih =>
    intro s b hs
    have hlt : s < mr := by omega
    have hrec := ih (s + 1) (b * 2) (by omega)
    rw [geomSleeps_succ, List.range'_succ, callLoop, h s, hrec]
    simp [hlt]

/-- C1 (counterexample): with the defaults `max_retries = 5`,
`initial_backoff = 1.0` and an endpoint answering HTTP 429 on every
attempt, the call does make exactly 5 attempts, but the delays slept are
`1, 2, 4, 8` — not `1, 2, 4, 8, 16` as the claim states: after the fifth
429 the exception is re-raised without a fifth sleep. -/
theorem C1_counterexample :
    (call_openai_with_backoff (fun _ => .httpError (some 429)) 5 1).attempts = 5 ∧
    (call_openai_with_backoff (fun _ => .httpError (some 429)) 5 1).sleeps = [1, 2, 4, 8] ∧
    (call_openai_with_backoff (fun _ => .httpError (some 429)) 5 1).sleeps ≠ [1, 2, 4, 8, 16] := by
  refine ⟨?_, ?_, ?_⟩ <;> norm_num [call_openai_with_backoff, callLoop, List.range']

/-- C1 (amended): for every endpoint that returns HTTP 429 on every
attempt, `call_openai_with_backoff` with the default `max_retries = 5` and
`initial_backoff = 1.0` makes exactly 5 attempts (a 6th never happens),
sleeps exactly the four back-off delays `1, 2, 4, 8` seconds between the
attempts, and then gives up by re-raising the 429 error. -/
theorem C1_theorem (script : Nat → HttpOutcome)
    (h : ∀ a, script a = .httpError (some 429)) :
    call_openai_with_backoff script 5 1 =
      { result := .error (.httpError (some 429)),
        sleeps := [1, 2, 4, 8], attempts := 5 } := by
  norm_num [call_openai_with_backoff, callLoop, List.range', h]

/-- C1 (witness): the amended statement evaluated on the constant-429
endpoint. -/
theorem C1_witness :
    call_openai_with_backoff (fun _ => .httpError (some 429)) 5 1 =
      { result := .error (.httpError (some 429)),
        sleeps := [1, 2, 4, 8], attempts := 5 } :=
  C1_theorem (fun _ => .httpError (some 429)) (fun _ => rfl)

/-- C5: for every scripted response sequence starting `429, 429, 200`,
`call_openai_with_backoff` with the defaults returns the parsed body of
the 200 response, makes three attempts, and sleeps exactly twice (1 second
before the second attempt, 2 seconds before the third). -/
theorem C5_theorem (script : Nat → HttpOutcome) (body : ChatBody)
    (h1 : script 1 = .httpError (some 429))
    (h2 : script 2 = .httpError (some 429))
    (h3 : script 3 = .success body) :
    call_openai_with_backoff script 5 1 =
      { result := .ok body, sleeps := [1, 2], attempts := 3 } := by
  norm_num [call_openai_with_backoff, callLoop, List.range', h1, h2, h3]

/-- C5 (witness): the statement evaluated on a concrete
`[429, 429, 200]` script. -/
theorem C5_witness :
    call_openai_with_backoff
        (fun n => if n < 3 then .httpError (some 429) else .success { choices := none }) 5 1 =
      { result := .ok { choices := none }, sleeps := [1, 2], attempts := 3 } :=
  C5_theorem _ { choices := none } rfl rfl rfl

/-- C7: for every `max_retries ≥ 1` and every initial back-off, a run in
which every attempt fails with a network-level `RequestException` sleeps
exactly the same delays and makes exactly the same number of attempts as a
run in which every attempt fails with HTTP 429; it makes exactly
`max_retries` attempts and only then surfaces the network failure. -/
theorem C7_theorem (mr : Nat) (hmr : 1 ≤ mr) (ib : ℚ)
    (s429 snet : Nat → HttpOutcome)
    (h429 : ∀ a, s429 a = .httpError (some 429))
    (hnet : ∀ a, snet a = .netError) :
    (call_openai_with_backoff snet mr ib).sleeps
        = (call_openai_with_backoff s429 mr ib).sleeps ∧
    (call_openai_with_backoff snet mr ib).attempts
        = (call_openai_with_backoff s429 mr ib).attempts ∧
    (call_openai_with_backoff snet mr ib).attempts = mr ∧
    (call_openai_with_backoff snet mr ib).result = .error .netError := by
  obtain ⟨n, rfl⟩ : ∃ n, mr = n + 1 := ⟨mr - 1, by omega⟩
  have h1 := callLoop_all429 s429 h429 (n + 1) n 1 ib (by omega)
  have h2 := callLoop_allNet snet hnet (n + 1) n 1 ib (by omega)
  unfold call_openai_with_backoff
  rw [h1, h2]
  exact ⟨rfl, rfl, rfl, rfl⟩

/-- C7 (witness): the statement evaluated at the defaults
(`max_retries = 5`, `initial_backoff = 1.0`) on the constant-network-error
and constant-429 endpoints. -/
theorem C7_witness :
    (call_openai_with_backoff (fun _ => .netError) 5 1).sleeps
        = (call_openai_with_backoff (fun _ => .httpError (some 429)) 5 1).sleeps ∧
    (call_openai_with_backoff (fun _ => .netError) 5 1).attempts
        = (call_openai_with_backoff (fun _ => .httpError (some 429)) 5 1).attempts ∧
    (call_openai_with_backoff (fun _ => .netError) 5 1).attempts = 5 ∧
    (call_openai_with_backoff (fun _ => .netError) 5 1).result = .error .netError :=
  C7_theorem 5 (by norm_num) 1 _ _ (fun _ => rfl) (fun _ => rfl)

/-- A conversation turn, one entry of `st.session_state.history`
(`{"role": "user"/"assistant", "content": "..."}`). -/
inductive Role
  | user
  | assistant
  deriving DecidableEq

structure Turn where
  role : Role
  content : String
  deriving DecidableEq

/-- `COOLDOWN_SECONDS = 5` (app.py line 12).  Timestamps (`time.time()`
values) are modelled as exact integer numbers of seconds. -/
def COOLDOWN_SECONDS : ℤ := 5

/-- The per-session state kept in `st.session_state` (app.py lines 40-45
and 79): the conversation history, the `awaiting_reply` flag, the
`cooldown_until` timestamp, and the optional `_uploaded_audio` bytes. -/
structure AppState where
  history : List Turn
  awaiting_reply : Bool
  cooldown_until : ℤ
  uploaded_audio : Option (List Nat)
  deriving DecidableEq

/-- The fresh session state (app.py lines 40-45): empty history, flag
down, `cooldown_until = 0`, and no `_uploaded_audio` key. -/
def initState : AppState :=
  { history := [], awaiting_reply := false, cooldown_until := 0, uploaded_audio := none }

/-- `is_disabled()` (app.py lines 48-49):
`time.time() < cooldown_until or awaiting_reply`. -/
def is_disabled (now : ℤ) (s : AppState) : Bool :=
  decide (now < s.cooldown_until) || s.awaiting_reply

/-- The text-form submit handler (app.py lines 61-64), given that the
submit button was pressed: `if submit_text and user_input:` append the
user turn, set `awaiting_reply = True` and start the cooldown window.
An empty `user_input` is falsy, so it is a no-op; any non-empty string
(whitespace included) is truthy and is appended. -/
def handleTextSubmit (now : ℤ) (text : String) (s : AppState) : AppState :=
  if text ≠ "" then
    { s with history := s.history ++ [{ role := .user, content := text }],
             awaiting_reply := true,
             cooldown_until := now + COOLDOWN_SECONDS }
  else s

/-- What the user did in the rerun being modelled: nothing, pressed the
text form's submit button with the given field contents, or uploaded an
audio file with the given bytes. -/
inductive UserEvent
  | idle
  | textSubmit (text : String)
  | audioUpload (bytes : List Nat)

/-- The widget-handling part of a rerun (app.py lines 57-82).  A disabled
widget cannot fire, so the submit applies only when the form was enabled;
the upload branch re-checks `not is_disabled()` itself (line 70) and then
sets `awaiting_reply`, starts the cooldown and stashes the bytes in
`_uploaded_audio` (lines 75-79). -/
def handleEvent (now : ℤ) (ev : UserEvent) (s : AppState) : AppState :=
  match ev with
  | .idle => s
  | .textSubmit text =>
    if is_disabled now s then s else handleTextSubmit now text s
  | .audioUpload bytes =>
    if is_disabled now s then s
    else { s with awaiting_reply := true,
                  cooldown_until := now + COOLDOWN_SECONDS,
                  uploaded_audio := some bytes }

/-- Outcome of the single `transcribe_audio_bytes` POST (app.py lines
135-143): the transcript text (`resp.json().get("text", "")`, possibly
empty), a `requests.HTTPError` from `raise_for_status`, or any other
exception. -/
inductive TransOutcome
  | ok (text : String)
  | httpError (status : Option Nat)
  | otherError

/-- The external world as seen by one pass of the main processing block:
the transcription outcome, the result of `call_openai_with_backoff`
(a parsed body, a re-raised `HTTPError`, a re-raised network error, or
`None` when no attempt ran), and whether `gTTS` speech synthesis throws. -/
structure Oracle where
  trans : TransOutcome
  chat : Except CallError ChatBody
  ttsFails : Bool

/-- User-facing side channel of one pass: whether the
"Transcription returned empty text." warning was shown, and which audio
file (identified by its text) was handed to `st.audio`. -/
structure PassLog where
  warnedEmptyTranscription : Bool
  audioPlayed : Option String
  deriving DecidableEq

/-- `data.get("choices", [{}])[0].get("message", {}).get("content", "")`
(app.py line 192).  A missing `choices` field gets the default `[{}]`,
whose single element then yields `""`; a present-but-empty `choices` list
makes `[0]` raise `IndexError`, modelled by `.error ()`. -/
def extract_assistant_text (data : ChatBody) : Except Unit String :=
  match data.choices.getD [{ message := none }] with
  | [] => .error ()
  | c :: _ => .ok ((c.message.getD { content := none }).content.getD "")

/-- `synthesize_tts_to_file(text)` (app.py lines 146-152): empty text
returns `None` before `gTTS` runs; otherwise `gTTS` may throw, else the
synthesized audio is saved to a temporary file (identified here by the
text it speaks). -/
def synthesize_tts_to_file (text : String) (fails : Bool) : Except Unit (Option String) :=
  if text = "" then .ok none
  else if fails then .error ()
  else .ok (some text)

/-- `st.session_state.pop("_uploaded_audio", None)` guarded by a key check
(app.py line 160): returns the stashed bytes, removing the key. -/
def popAudio (s : AppState) : Option (List Nat) × AppState :=
  (s.uploaded_audio, { s with uploaded_audio := none })

/-- The transcription part of the main processing block (app.py lines
164-185), run when uploaded audio bytes are truthy (non-empty): on a
non-empty transcript, append it as a user turn; on an empty transcript,
only warn; on `HTTPError` or any other exception, append the apologetic
assistant turn and clear `awaiting_reply` early.  Returns the new state
and whether the empty-transcript warning fired. -/
def transStep (orc : Oracle) (uploaded : Option (List Nat)) (s : AppState) :
    AppState × Bool :=
  match uploaded with
  | none => (s, false)
  | some b =>
    if b.isEmpty then (s, false)
    else
      match orc.trans with
      | .ok t =>
        if t = "" then (s, true)
        else ({ s with history := s.history ++ [{ role := .user, content := t }] }, false)
      | .httpError _ =>
        ({ s with
            history := s.history ++
              [{ role := .assistant, content := "Sorry — transcription failed." }]
            awaiting_reply := false }, false)
      | .otherError =>
        ({ s with
            history := s.history ++
              [{ role := .assistant, content := "Sorry — transcription failed." }]
            awaiting_reply := false }, false)

/-- The completion part of the main processing block (app.py lines
188-207): if the history is non-empty and ends with a user turn, call
`call_openai_with_backoff` and append an assistant turn — the extracted
completion text, the fixed fallback when it is falsy, or the error text
chosen by the handlers at lines 209-221 (HTTP errors get the "API error"
apology, anything else the "unexpected server error" one).  A `gTTS`
failure is swallowed by the inner handler (lines 202-204) after the
assistant turn was already appended, affecting only the played audio. -/
def chatStep (orc : Oracle) (s : AppState) : AppState × Option String :=
  if (s.history.getLast?).map Turn.role = some Role.user then
    match orc.chat with
    | .ok body =>
      match extract_assistant_text body with
      | .ok t0 =>
        let t := if t0 = "" then "Sorry — I couldn't generate a response." else t0
        let audio :=
          match synthesize_tts_to_file t orc.ttsFails with
          | .ok f => f
          | .error _ => none
        ({ s with history := s.history ++ [{ role := .assistant, content := t }] }, audio)
      | .error _ =>
        ({ s with history := s.history ++
            [{ role := .assistant, content := "Sorry — unexpected server error." }] }, none)
    | .error (.httpError _) =>
      ({ s with history := s.history ++
          [{ role := .assistant, content := "Sorry — API error. Please try again later." }] }, none)
    | .error .netError =>
      ({ s with history := s.history ++
          [{ role := .assistant, content := "Sorry — unexpected server error." }] }, none)
    | .error .noAttempt =>
      ({ s with history := s.history ++
          [{ role := .assistant, content := "Sorry — unexpected server error." }] }, none)
  else (s, none)

/-- The main processing block (app.py lines 155-226).  It runs only when
`awaiting_reply` is set AND the history is non-empty (line 155); it pops
the stashed audio, runs the transcription step and then the completion
step, and its `finally` clause (lines 223-226) clears `awaiting_reply`
and refreshes the cooldown.  When the guard fails nothing at all runs —
in particular the `finally` clause does not. -/
def processPass (now : ℤ) (orc : Oracle) (s : AppState) : AppState × PassLog :=
  if s.awaiting_reply && !s.history.isEmpty then
    let p := popAudio s
    let t := transStep orc p.1 p.2
    let c := chatStep orc t.1
    ({ c.1 with awaiting_reply := false, cooldown_until := now + COOLDOWN_SECONDS },
     { warnedEmptyTranscription := t.2, audioPlayed := c.2 })
  else (s, { warnedEmptyTranscription := false, audioPlayed := none })

/-- One full Streamlit rerun: the widget handlers run first (top of the
script), then the main processing block at the bottom of the script. -/
def runPass (now : ℤ) (ev : UserEvent) (orc : Oracle) (s : AppState) :
    AppState × PassLog :=
  processPass now orc (handleEvent now ev s)

/-- Session states reachable from a fresh session by any sequence of
reruns, with arbitrary user events and arbitrary endpoint behaviour. -/
inductive Reachable : AppState → Prop
  | init : Reachable initState
  | step (now : ℤ) (ev : UserEvent) (orc : Oracle) {s : AppState} :
      Reachable s → Reachable (runPass now ev orc s).1

/-- C2: the failing input for the claim.  In a fresh session (empty
history) the first user action is an audio upload: the upload branch sets
`awaiting_reply = True` and stashes the bytes, but the main processing
block is guarded by `awaiting_reply and history` (line 155), so with an
empty history it never runs and its `finally` clause never clears the
flag.  Moreover every subsequent rerun leaves this state untouched (all
inputs are disabled by the stuck flag), so the input is locked for good —
contradicting the claim that the flag is cleared by the end of the pass. -/
theorem C2_theorem :
    (runPass 0 (.audioUpload [0])
        { trans := .ok "", chat := .ok { choices := none }, ttsFails := false }
        initState).1 =
      { history := [], awaiting_reply := true, cooldown_until := 5,
        uploaded_audio := some [0] } ∧
    (∀ (now : ℤ) (ev : UserEvent) (orc : Oracle),
      (runPass now ev orc
          { history := [], awaiting_reply := true, cooldown_until := 5,
            uploaded_audio := some [0] }).1 =
        { history := [], awaiting_reply := true, cooldown_until := 5,
          uploaded_audio := some [0] }) := by
  constructor
  · decide
  · intro now ev orc
    cases ev <;> simp [runPass, handleEvent, processPass, is_disabled]

/-- C3 (counterexample): `" "` is whitespace-only, yet the submit handler
(`if submit_text and user_input:`) treats it as truthy: it appends the
user turn, sets `awaiting_reply` and starts the cooldown, instead of the
no-op the claim requires. -/
theorem C3_counterexample :
    (" ").toList.all Char.isWhitespace = true ∧
    handleTextSubmit 0 " " initState =
      { history := [{ role := Role.user, content := " " }], awaiting_reply := true,
        cooldown_until := 5, uploaded_audio := none } := by
  constructor
  · decide
  · decide

/-- C3 (amended): the submit action is a no-op exactly when the text is
the empty string; every non-empty text — whitespace-only included — is
appended as a user turn, sets `awaiting_reply = true` and sets
`cooldown_until = now + COOLDOWN_SECONDS`. -/
theorem C3_theorem (now : ℤ) (text : String) (s : AppState) :
    (text = "" → handleTextSubmit now text s = s) ∧
    (text ≠ "" →
      handleTextSubmit now text s =
        { s with
            history := s.history ++ [{ role := Role.user, content := text }]
            awaiting_reply := true
            cooldown_until := now + COOLDOWN_SECONDS }) := by
  constructor <;> intro h <;> simp [handleTextSubmit, h]

/-- C3 (witness): the amended statement evaluated at the empty text and at
`"hello"` on a fresh session. -/
theorem C3_witness :
    handleTextSubmit 0 "" initState = initState ∧
    handleTextSubmit 0 "hello" initState =
      { initState with
          history := initState.history ++ [{ role := Role.user, content := "hello" }]
          awaiting_reply := true
          cooldown_until := 0 + COOLDOWN_SECONDS } :=
  ⟨(C3_theorem 0 "" initState).1 rfl, (C3_theorem 0 "hello" initState).2 (by decide)⟩

/-- The amended adjacency invariant: in the conversation log, an assistant
turn directly following another assistant turn can only be the
transcription-failure apology (which line 179/184 appends without a
preceding user turn, since the failed upload contributed none). -/
def adjOK (a b : Turn) : Prop :=
  a.role = Role.assistant → b.role = Role.assistant →
    b.content = "Sorry — transcription failed."

lemma adjOK_of_user_snd (a : Turn) (t : String) :
    adjOK a { role := Role.user, content := t } :=
  fun _ hb => nomatch hb

lemma adjOK_apology (a : Turn) :
    adjOK a { role := Role.assistant, content := "Sorry — transcription failed." } :=
  fun _ _ => rfl

lemma adjOK_of_fst_user (a b : Turn) (h : a.role = Role.user) : adjOK a b :=
  fun ha _ => nomatch (h.symm.trans ha)

lemma chain'_snoc_adjOK (l : List Turn) (x : Turn) (h : l.Chain' adjOK)
    (hx : ∀ a, l.getLast? = some a → adjOK a x) :
    (l ++ [x]).Chain' adjOK := by
  rw [List.chain'_append]
  refine ⟨h, List.chain'_singleton x, ?_⟩
  intro a ha y hy
  rw [Option.mem_def, List.head?_cons, Option.some.injEq] at hy
  subst hy
  exact hx a (Option.mem_def.mp ha)

/-- The widget handlers either leave the history unchanged or append one
user turn (the submitted text). -/
lemma handleEvent_shape (now : ℤ) (ev : UserEvent) (s : AppState) :
    (handleEvent now ev s).history = s.history ∨
    ∃ t, (handleEvent now ev s).history =
      s.history ++ [{ role := Role.user, content := t }] := by
  cases ev with
  | idle => exact Or.inl rfl
  | textSubmit text =>
    simp only [handleEvent]
    split
    · exact Or.inl rfl
    · simp only [handleTextSubmit]
      split
      · exact Or.inr ⟨text, rfl⟩
      · exact Or.inl rfl
  | audioUpload bytes =>
    simp only [handleEvent]
    split
    · exact Or.inl rfl
    · exact Or.inl rfl

/-- The transcription step leaves the history unchanged, appends one user
turn (the transcript), or appends the apologetic assistant turn. -/
lemma transStep_shape (orc : Oracle) (u : Option (List Nat)) (s : AppState) :
    ((transStep orc u s).1.history = s.history) ∨
    (∃ t, (transStep orc u s).1.history =
      s.history ++ [{ role := Role.user, content := t }]) ∨
    ((transStep orc u s).1.history =
      s.history ++ [{ role := Role.assistant, content := "Sorry — transcription failed." }]) := by
  cases u with
  | none => exact Or.inl rfl
  | some b =>
    simp only [transStep]
    split
    · exact Or.inl rfl
    · cases orc.trans with
      | ok t =>
        dsimp only
        split
        · exact Or.inl rfl
        · exact Or.inr (Or.inl ⟨t, rfl⟩)
      | httpError st => exact Or.inr (Or.inr rfl)
      | otherError => exact Or.inr (Or.inr rfl)

/-- The completion step either leaves the history unchanged, or — only
when the history ends with a user turn — appends exactly one assistant
turn. -/
lemma chatStep_shape (orc : Oracle) (s : AppState) :
    ((chatStep orc s).1.history = s.history) ∨
    ((s.history.getLast?).map Turn.role = some Role.user ∧
      ∃ x, (chatStep orc s).1.history =
        s.history ++ [{ role := Role.assistant, content := x }]) := by
  unfold chatStep
  split
  · next hguard =>
    refine Or.inr ⟨hguard, ?_⟩
    cases orc.chat with
    | ok body =>
      dsimp only
      cases hx : extract_assistant_text body with
      | ok t0 => exact ⟨_, rfl⟩
      | error e => exact ⟨_, rfl⟩
    | error e => cases e <;> exact ⟨_, rfl⟩
  · exact Or.inl rfl

/-- One whole processing pass preserves the adjacency invariant. -/
lemma processPass_chain (now : ℤ) (orc : Oracle) (s : AppState)
    (h : s.history.Chain' adjOK) :
    (processPass now orc s).1.history.Chain' adjOK := by
  unfold processPass
  split
  · have htc : (transStep orc (popAudio s).1 (popAudio s).2).1.history.Chain' adjOK := by
      rcases transStep_shape orc (popAudio s).1 (popAudio s).2 with he | ⟨t, he⟩ | he
      · rw [he]; exact h
      · rw [he]; exact chain'_snoc_adjOK _ _ h (fun a _ => adjOK_of_user_snd a t)
      · rw [he]; exact chain'_snoc_adjOK _ _ h (fun a _ => adjOK_apology a)
    rcases chatStep_shape orc (transStep orc (popAudio s).1 (popAudio s).2).1
      with he | ⟨hu, x, he⟩
    · show (chatStep orc (transStep orc (popAudio s).1 (popAudio s).2).1).1.history.Chain' adjOK
      rw [he]; exact htc
    · show (chatStep orc (transStep orc (popAudio s).1 (popAudio s).2).1).1.history.Chain' adjOK
      rw [he]
      refine chain'_snoc_adjOK _ _ htc fun a ha => ?_
      refine adjOK_of_fst_user a _ ?_
      rw [ha] at hu
      simpa using hu
  · exact h

/-- One whole rerun preserves the adjacency invariant. -/
lemma runPass_chain (now : ℤ) (ev : UserEvent) (orc : Oracle) (s : AppState)
    (h : s.history.Chain' adjOK) :
    (runPass now ev orc s).1.history.Chain' adjOK := by
  unfold runPass
  apply processPass_chain
  rcases handleEvent_shape now ev s with he | ⟨t, he⟩
  · rw [he]; exact h
  · rw [he]; exact chain'_snoc_adjOK _ _ h (fun a _ => adjOK_of_user_snd a t)

/-- C4 (counterexample): a reachable two-pass trace — a text turn answered
normally, then an audio upload whose transcription fails with an HTTP
error — produces the history `user, assistant, assistant`: the apologetic
assistant turn of the transcription-failure path directly follows the
previous assistant turn with no intervening (synthetic or real) user
turn, contradicting the claimed invariant. -/
theorem C4_counterexample :
    ((runPass 10 (.audioUpload [0])
        { trans := .httpError (some 500), chat := .ok { choices := none }, ttsFails := false }
        ((runPass 0 (.textSubmit "hi")
          { trans := .ok "",
            chat := .ok { choices := some [{ message := some { content := some "Hello!" } }] },
            ttsFails := false }
          initState).1)).1).history =
      [{ role := Role.user, content := "hi" },
       { role := Role.assistant, content := "Hello!" },
       { role := Role.assistant, content := "Sorry — transcription failed." }] ∧
    Reachable ((runPass 10 (.audioUpload [0])
        { trans := .httpError (some 500), chat := .ok { choices := none }, ttsFails := false }
        ((runPass 0 (.textSubmit "hi")
          { trans := .ok "",
            chat := .ok { choices := some [{ message := some { content := some "Hello!" } }] },
            ttsFails := false }
          initState).1)).1) :=
  ⟨by rfl, Reachable.step _ _ _ (Reachable.step _ _ _ Reachable.init)⟩

/-- C4 (amended): in every reachable conversation history, two
consecutive assistant turns occur only when the second one is the
transcription-failure apology; the completion step itself appends an
assistant turn only directly after a user turn.  (The original claim is
refuted by `C4_counterexample`: the transcription-failure path does
append an assistant turn right after an assistant turn.) -/
theorem C4_theorem (s : AppState) (h : Reachable s) :
    s.history.Chain' adjOK := by
  induction h with
  | init => exact List.chain'_nil
  | step now ev orc hr ih => exact runPass_chain _ _ _ _ ih

/-- C4 (witness): the amended invariant evaluated on a concrete reachable
state (one text turn answered normally). -/
theorem C4_witness :
    ((runPass 0 (.textSubmit "hi")
        { trans := .ok "", chat := .ok { choices := none }, ttsFails := false }
        initState).1).history.Chain' adjOK :=
  C4_theorem _ (Reachable.step 0 (.textSubmit "hi") _ Reachable.init)

/-- When the guard at line 155 passes and no audio is stashed, the pass is
the completion step followed by the `finally` clause. -/
lemma processPass_no_audio (now : ℤ) (orc : Oracle) (s : AppState)
    (hA : s.awaiting_reply = true) (hH : s.history ≠ [])
    (hU : s.uploaded_audio = none) :
    processPass now orc s =
      ({ (chatStep orc { s with uploaded_audio := none }).1 with
          awaiting_reply := false
          cooldown_until := now + COOLDOWN_SECONDS },
       { warnedEmptyTranscription := false
         audioPlayed := (chatStep orc { s with uploaded_audio := none }).2 }) := by
  have hguard : (s.awaiting_reply && !s.history.isEmpty) = true := by
    rw [hA]
    cases h : s.history
    · exact absurd h hH
    · rfl
  unfold processPass popAudio
  split
  · dsimp only
    rw [hU]
    rfl
  · next hg => exact absurd hguard hg

/-- The completion step on a 2xx body whose extraction succeeds: append
the extracted text, or the fixed fallback when it is falsy. -/
lemma chatStep_fst_ok (orc : Oracle) (s : AppState) (body : ChatBody) (t0 : String)
    (hL : (s.history.getLast?).map Turn.role = some Role.user)
    (hC : orc.chat = .ok body)
    (hE : extract_assistant_text body = .ok t0) :
    (chatStep orc s).1 =
      { s with history := s.history ++
          [{ role := Role.assistant,
             content := if t0 = "" then "Sorry — I couldn't generate a response." else t0 }] } := by
  unfold chatStep
  split
  · rw [hC]
    dsimp only
    rw [hE]
  · next hg => exact absurd hL hg

/-- The completion step on a 2xx body whose extraction raises
(`IndexError` on an empty `choices` list): the generic handler at line
218 appends the unexpected-server-error turn. -/
lemma chatStep_fst_extract_error (orc : Oracle) (s : AppState) (body : ChatBody) (e : Unit)
    (hL : (s.history.getLast?).map Turn.role = some Role.user)
    (hC : orc.chat = .ok body)
    (hE : extract_assistant_text body = .error e) :
    (chatStep orc s).1 =
      { s with history := s.history ++
          [{ role := Role.assistant, content := "Sorry — unexpected server error." }] } := by
  unfold chatStep
  split
  · rw [hC]
    dsimp only
    rw [hE]
  · next hg => exact absurd hL hg

/-- C6: for every pass whose pending turn is a user turn (no audio
stashed) and whose chat call succeeds with a JSON body that has no
`choices` field, the extraction returns `""` without raising and the pass
appends an assistant turn carrying the fixed fallback string. -/
theorem C6_theorem (now : ℤ) (orc : Oracle) (s : AppState)
    (hA : s.awaiting_reply = true) (hH : s.history ≠ [])
    (hU : s.uploaded_audio = none)
    (hL : (s.history.getLast?).map Turn.role = some Role.user)
    (hC : orc.chat = .ok { choices := none }) :
    extract_assistant_text { choices := none } = .ok "" ∧
    (processPass now orc s).1.history =
      s.history ++ [{ role := Role.assistant,
                      content := "Sorry — I couldn't generate a response." }] := by
  refine ⟨rfl, ?_⟩
  rw [processPass_no_audio now orc s hA hH hU]
  dsimp only
  rw [chatStep_fst_ok orc { s with uploaded_audio := none } { choices := none } "" hL hC rfl]
  rfl

/-- C6 (witness): the statement evaluated on a one-user-turn session and a
choices-less 200 body. -/
theorem C6_witness :
    extract_assistant_text { choices := none } = .ok "" ∧
    (processPass 0
        { trans := .ok "", chat := .ok { choices := none }, ttsFails := false }
        { history := [{ role := Role.user, content := "hi" }], awaiting_reply := true,
          cooldown_until := 0, uploaded_audio := none }).1.history =
      [{ role := Role.user, content := "hi" }] ++
        [{ role := Role.assistant, content := "Sorry — I couldn't generate a response." }] :=
  C6_theorem 0 _ _ rfl (by decide) rfl rfl rfl

/-- C10: for every pass whose pending turn is a user turn and whose chat
call succeeds with a body whose `choices` field is present but an empty
list, the extraction raises (modelled `.error ()`) and the generic
`except Exception` handler appends the unexpected-server-error turn — not
the fixed fallback used for a missing field. -/
theorem C10_theorem (now : ℤ) (orc : Oracle) (s : AppState)
    (hA : s.awaiting_reply = true) (hH : s.history ≠ [])
    (hU : s.uploaded_audio = none)
    (hL : (s.history.getLast?).map Turn.role = some Role.user)
    (hC : orc.chat = .ok { choices := some [] }) :
    extract_assistant_text { choices := some [] } = .error () ∧
    (processPass now orc s).1.history =
      s.history ++ [{ role := Role.assistant,
                      content := "Sorry — unexpected server error." }] := by
  refine ⟨rfl, ?_⟩
  rw [processPass_no_audio now orc s hA hH hU]
  dsimp only
  rw [chatStep_fst_extract_error orc { s with uploaded_audio := none }
        { choices := some [] } () hL hC rfl]

/-- C10 (witness): the statement evaluated on a one-user-turn session and
a 200 body with `choices = []`. -/
theorem C10_witness :
    extract_assistant_text { choices := some [] } = .error () ∧
    (processPass 0
        { trans := .ok "", chat := .ok { choices := some [] }, ttsFails := false }
        { history := [{ role := Role.user, content := "hi" }], awaiting_reply := true,
          cooldown_until := 0, uploaded_audio := none }).1.history =
      [{ role := Role.user, content := "hi" }] ++
        [{ role := Role.assistant, content := "Sorry — unexpected server error." }] :=
  C10_theorem 0 _ _ rfl (by decide) rfl rfl rfl

/-- C8: for every pass whose pending turn is a user turn and whose chat
call succeeds with an extractable body, the pass appends exactly the one
assistant turn carrying the completion text (no additional error turn),
and the resulting session state is identical whether or not the
subsequent `gTTS` synthesis throws — the text reply was committed before
the TTS step and a synthesis failure degrades silently to text-only. -/
theorem C8_theorem (now : ℤ) (orc : Oracle) (s : AppState) (body : ChatBody) (t0 : String)
    (hA : s.awaiting_reply = true) (hH : s.history ≠ [])
    (hU : s.uploaded_audio = none)
    (hL : (s.history.getLast?).map Turn.role = some Role.user)
    (hC : orc.chat = .ok body)
    (hE : extract_assistant_text body = .ok t0) :
    (∀ b : Bool,
      (processPass now { orc with ttsFails := b } s).1.history =
        s.history ++
          [{ role := Role.assistant
             content := if t0 = "" then "Sorry — I couldn't generate a response." else t0 }]) ∧
    (processPass now { orc with ttsFails := true } s).1 =
      (processPass now { orc with ttsFails := false } s).1 := by
  have key : ∀ b : Bool,
      (processPass now { orc with ttsFails := b } s).1 =
        { s with
            history := s.history ++
              [{ role := Role.assistant
                 content := if t0 = "" then "Sorry — I couldn't generate a response." else t0 }]
            awaiting_reply := false
            cooldown_until := now + COOLDOWN_SECONDS
            uploaded_audio := none } := by
    intro b
    rw [processPass_no_audio now { orc with ttsFails := b } s hA hH hU]
    dsimp only
    rw [chatStep_fst_ok { orc with ttsFails := b } { s with uploaded_audio := none }
          body t0 hL hC hE]
  exact ⟨fun b => by rw [key b], by rw [key true, key false]⟩

/-- C8 (witness): the statement evaluated on a one-user-turn session, a
body extracting to `"Hello!"`, and both values of the TTS failure flag. -/
theorem C8_witness :
    (∀ b : Bool,
      (processPass 0
          { trans := .ok "",
            chat := .ok { choices := some [{ message := some { content := some "Hello!" } }] },
            ttsFails := b }
          { history := [{ role := Role.user, content := "hi" }], awaiting_reply := true,
            cooldown_until := 0, uploaded_audio := none }).1.history =
        [{ role := Role.user, content := "hi" }] ++
          [{ role := Role.assistant, content := "Hello!" }]) ∧
    (processPass 0
        { trans := .ok "",
          chat := .ok { choices := some [{ message := some { content := some "Hello!" } }] },
          ttsFails := true }
        { history := [{ role := Role.user, content := "hi" }], awaiting_reply := true,
          cooldown_until := 0, uploaded_audio := none }).1 =
      (processPass 0
        { trans := .ok "",
          chat := .ok { choices := some [{ message := some { content := some "Hello!" } }] },
          ttsFails := false }
        { history := [{ role := Role.user, content := "hi" }], awaiting_reply := true,
          cooldown_until := 0, uploaded_audio := none }).1 := by
  have h := C8_theorem 0
    { trans := .ok "",
      chat := .ok { choices := some [{ message := some { content := some "Hello!" } }] },
      ttsFails := false }
    { history := [{ role := Role.user, content := "hi" }], awaiting_reply := true,
      cooldown_until := 0, uploaded_audio := none }
    { choices := some [{ message := some { content := some "Hello!" } }] } "Hello!"
    rfl (by decide) rfl rfl rfl rfl
  simpa using h

/-- The transcription step on non-empty audio bytes whose transcript comes
back empty: no turn is appended, only the warning fires (line 174). -/
lemma transStep_empty_transcript (orc : Oracle) (b : List Nat) (s : AppState)
    (hb : b ≠ []) (hT : orc.trans = .ok "") :
    transStep orc (some b) s = (s, true) := by
  have hbe : b.isEmpty = false := by
    cases b with
    | nil => exact absurd rfl hb
    | cons x xs => rfl
  simp [transStep, hbe, hT]

/-- C9: for every pass with stashed (non-empty) audio whose transcription
returns the empty string, no user turn is appended — every turn the pass
appends is an assistant turn — and the empty-transcription warning is
surfaced to the caller. -/
theorem C9_theorem (now : ℤ) (orc : Oracle) (s : AppState) (b : List Nat)
    (hA : s.awaiting_reply = true) (hH : s.history ≠ [])
    (hU : s.uploaded_audio = some b) (hb : b ≠ [])
    (hT : orc.trans = .ok "") :
    (∃ d, (processPass now orc s).1.history = s.history ++ d ∧
        ∀ turn ∈ d, turn.role = Role.assistant) ∧
    (processPass now orc s).2.warnedEmptyTranscription = true := by
  have hguard : (s.awaiting_reply && !s.history.isEmpty) = true := by
    rw [hA]
    cases h : s.history
    · exact absurd h hH
    · rfl
  have hP : processPass now orc s =
      ({ (chatStep orc { s with uploaded_audio := none }).1 with
          awaiting_reply := false
          cooldown_until := now + COOLDOWN_SECONDS },
       { warnedEmptyTranscription := true
         audioPlayed := (chatStep orc { s with uploaded_audio := none }).2 }) := by
    unfold processPass popAudio
    split
    · dsimp only
      rw [hU, transStep_empty_transcript orc b { s with uploaded_audio := none } hb hT]
    · next hg => exact absurd hguard hg
  rw [hP]
  refine ⟨?_, rfl⟩
  rcases chatStep_shape orc { s with uploaded_audio := none } with he | ⟨hu, x, he⟩
  · refine ⟨[], ?_, by intro turn ht; cases ht⟩
    rw [List.append_nil]
    exact he
  · refine ⟨[{ role := Role.assistant, content := x }], he, ?_⟩
    intro turn ht
    rw [List.mem_singleton.mp ht]

/-- C9 (witness): the statement evaluated on a session holding one user
turn, non-empty audio bytes, and a transcription returning `""`. -/
theorem C9_witness :
    (∃ d, (processPass 0
        { trans := .ok "", chat := .ok { choices := none }, ttsFails := false }
        { history := [{ role := Role.user, content := "hi" }], awaiting_reply := true,
          cooldown_until := 0, uploaded_audio := some [7] }).1.history =
        [{ role := Role.user, content := "hi" }] ++ d ∧
        ∀ turn ∈ d, turn.role = Role.assistant) ∧
    (processPass 0
        { trans := .ok "", chat := .ok { choices := none }, ttsFails := false }
        { history := [{ role := Role.user, content := "hi" }], awaiting_reply := true,
          cooldown_until := 0, uploaded_audio := some [7] }).2.warnedEmptyTranscription = true :=
  C9_theorem 0
    { trans := .ok "", chat := .ok { choices := none }, ttsFails := false }
    { history := [{ role := Role.user, content := "hi" }], awaiting_reply := true,
      cooldown_until := 0, uploaded_audio := some [7] }
    [7] rfl (by decide) rfl (by decide) rfl
